import Mathlib

/-
Verification development for the Brass Monkey Fridge Monitor daemon
(src/cerbo_gx_fridge_temp.py).

The daemon runs an outer registration loop: it opens the system bus,
provisions settings paths with a GetValue-then-SetValue-on-DBusException
pattern, claims a bus name, exports a TemperatureService object, provisions
four metadata paths, builds a GLib main loop object, and then runs an inner
sampling loop guarded by mainloop.is_running().  The development below is a
shallow embedding of that program: exception dispatch is modelled with an
explicit Python exception-class type, bus and sensor interactions are
modelled by environments that record the outcome of each external call, and
floats are modelled as rationals.
-/

namespace BrassMonkey

/-- Constant from the source: the well-known D-Bus service name. -/
def SERVICE_NAME : String := "com.victronenergy.temperature.brass_monkey"

/-- Constant from the source: the settings object path. -/
def OBJ_PATH : String := "/Settings/Temperature/BrassMonkey"

/-- Constant from the source: the product and custom name. -/
def DRIVER_NAME : String := "Brass Monkey Fridge Monitor"

/-- Constant from the source: the chosen device instance number. -/
def DEVICE_INSTANCE : Int := 245

/-- Constant from the source: the product id 0xB104 written at /ProductId. -/
def PRODUCT_ID : Int := 0xB104

/-- Python exception classes relevant to the dispatch in main:
dbus.exceptions.DBusException (a subclass of Exception), any other
Exception subclass, and a BaseException that is not an Exception
(for example SystemExit), which no handler in the source catches. -/
inductive PyExnClass
  | dbusException
  | genericException
  | systemExit
  deriving DecidableEq

/-- Python isinstance(e, Exception): true for every exception class except
BaseException-only classes such as SystemExit. -/
def isInstanceException : PyExnClass → Bool
  | .systemExit => false
  | _ => true

/-- Model of the Python str.startswith method over the character list of a
string: folder.startswith(pre). -/
def pyStartswith (pre s : String) : Bool :=
  pre.data.isPrefixOf s.data

/-- Model of the Python str.endswith method over the character list of a
string. -/
def pyEndswith (suf s : String) : Bool :=
  suf.data.isSuffixOf s.data

/-- Model of the Python str.strip method: drop whitespace from both ends. -/
def pyStrip (s : String) : String :=
  String.mk (((s.data.dropWhile Char.isWhitespace).reverse.dropWhile Char.isWhitespace).reverse)

/-- Helper for pyFindTail: scan for the first occurrence of pat and return
the characters after it. -/
def findAfter (pat : List Char) : List Char → Option (List Char)
  | [] => if pat.isEmpty then some [] else none
  | c :: cs =>
    if pat.isPrefixOf (c :: cs) then some (List.drop pat.length (c :: cs))
    else findAfter pat cs

/-- Model of the source idiom equals_pos = line.find(pat) followed by
slicing line from equals_pos + len(pat): none when find returns -1,
otherwise the substring after the first occurrence of pat. -/
def pyFindTail (pat s : String) : Option String :=
  (findAfter pat.data s.data).map String.mk

/-- Outcomes of the external calls made by read_temp on the armv7l branch:
the os.listdir call, the open-and-readlines of the w1_slave file, and the
float(...) parse of the temperature substring.  Each can return a value or
raise a Python exception; their internals are outside the program. -/
structure SensorEnv where
  listdir : Except PyExnClass (List String)
  readFile : Except PyExnClass (List String)
  parseFloat : String → Except PyExnClass ℚ

/-- Model of next((folder for folder in os.listdir(base_dir) if
folder.startswith(str28)), None) where str28 is the string 28-. -/
def findDeviceFolder (folders : List String) : Option String :=
  folders.find? (fun folder => pyStartswith "28-" folder)

/-- The body of the try block in read_temp on the armv7l branch
(source lines 145-171), with each early return modelled as Except.ok and
each uncaught raise as Except.error.  lines with fewer elements than the
subscripts lines[0] and lines[1] demand raise IndexError, a generic
Exception. -/
def readTempArmBody (env : SensorEnv) : Except PyExnClass ℚ :=
  match env.listdir with
  | Except.error e => Except.error e
  | Except.ok folders =>
    match findDeviceFolder folders with
    | none => Except.ok 25
    | some _fld =>
      match env.readFile with
      | Except.error e => Except.error e
      | Except.ok lines =>
        match lines with
        | [] => Except.error PyExnClass.genericException
        | line0 :: rest =>
          if pyEndswith "YES" (pyStrip line0) then
            match rest with
            | [] => Except.error PyExnClass.genericException
            | line1 :: _ =>
              match pyFindTail "t=" line1 with
              | none => Except.ok 25
              | some tempString =>
                match env.parseFloat tempString with
                | Except.error e => Except.error e
                | Except.ok x => Except.ok (x / 1000)
          else Except.ok 25

/-- Model of read_temp (source lines 130-177).  The machine argument is the
result of platform.machine().  On armv7l the try body runs and any raised
exception that is an instance of Exception is caught and replaced by the
default 25.0; on every other machine the function logs and returns the
simulated value 22.5. -/
def read_temp (machine : String) (env : SensorEnv) : Except PyExnClass ℚ :=
  if machine == "armv7l" then
    match readTempArmBody env with
    | Except.ok t => Except.ok t
    | Except.error e =>
      if isInstanceException e then Except.ok 25 else Except.error e
  else
    Except.ok (22.5 : ℚ)

/-- State of the exported TemperatureService object: the stored temperature
(self dot _temperature) and the log of PropertiesChanged payloads emitted so
far, each carrying the Value written. -/
structure TemperatureService where
  temperature : ℚ
  signals : List ℚ

/-- The TemperatureService constructor (source lines 206-208): the initial
temperature is 25.0 and no signal has been emitted. -/
def TemperatureService.init : TemperatureService :=
  { temperature := 25, signals := [] }

/-- The Value property setter (source lines 226-233): store the new value
and emit one PropertiesChanged signal carrying it, unconditionally. -/
def setValue (svc : TemperatureService) (v : ℚ) : TemperatureService :=
  { temperature := v, signals := svc.signals ++ [v] }

/-- The Value property getter (source lines 217-224). -/
def Value (svc : TemperatureService) : ℚ :=
  svc.temperature

/-- Round half to even, the rounding used by Python float formatting,
expressed on rationals. -/
def rhe (q : ℚ) : Int :=
  let f := ⌊q⌋
  if q - f < 1 / 2 then f
  else if q - f > 1 / 2 then f + 1
  else if f % 2 = 0 then f else f + 1

/-- Model of the Python one-decimal float format applied to a rational:
round the value times ten half-to-even, then print sign, integer part, a
dot, and the single tenths digit. -/
def pyFmt1 (q : ℚ) : String :=
  let n := rhe (q * 10)
  (if n < 0 then "-" else "")
    ++ toString (n.natAbs / 10) ++ "."
    ++ String.singleton (Nat.digitChar (n.natAbs % 10))

/-- The Text property getter (source lines 235-242): the stored temperature
formatted to one decimal place followed by the unit suffix, recomputed from
the stored state on every read. -/
def Text (svc : TemperatureService) : String :=
  pyFmt1 svc.temperature ++ " °C"

/-- A finite sequence of writes through the Value setter. -/
def applySets (svc : TemperatureService) (vs : List ℚ) : TemperatureService :=
  vs.foldl setValue svc

/-- Environment of one inner sampling iteration (source lines 296-305): the
outcome of the sample-source call (the external seam the source documents as
a placeholder to be replaced), and whether the signal emission of the Value
push raises. -/
structure IterEnv where
  readTempResult : Except PyExnClass ℚ
  pushRaise : Option PyExnClass

/-- How one inner iteration ends: normal completion with the 5 second
sleep, the inner except-Exception handler firing with the 60 second backoff
and the loop retried on the same connection, or an exception escaping the
inner loop to the outer handlers. -/
inductive IterExit
  | nextIter (slept : Nat)
  | caughtRetry (slept : Nat)
  | escape (e : PyExnClass)
  deriving DecidableEq

/-- One iteration of the inner sampling loop body (source lines 297-305).
The whole body is wrapped in try-except Exception: a raised sample-source
error is caught before any write, so the service state is untouched; a
successful sample is stored (and its signal emitted) by the Value setter
before any push error can raise. -/
def innerIteration (env : IterEnv) (svc : TemperatureService) :
    TemperatureService × IterExit :=
  match env.readTempResult with
  | Except.error e =>
    if isInstanceException e then (svc, IterExit.caughtRetry 60)
    else (svc, IterExit.escape e)
  | Except.ok t =>
    match env.pushRaise with
    | some e =>
      if isInstanceException e then (setValue svc t, IterExit.caughtRetry 60)
      else (setValue svc t, IterExit.escape e)
    | none => (setValue svc t, IterExit.nextIter 5)

/-- Run the inner sampling body over a list of iteration environments,
stopping early when an exception escapes the inner handler. -/
def runSampling : List IterEnv → TemperatureService → TemperatureService
  | [], svc => svc
  | iv :: rest, svc =>
    match innerIteration iv svc with
    | (svc1, IterExit.escape _) => svc1
    | (svc1, _) => runSampling rest svc1

/-- Values stored at settings paths: floats, integers, or strings. -/
inductive SVal
  | f (q : ℚ)
  | i (n : Int)
  | s (str : String)
  deriving DecidableEq

/-- The settings store of the bus, as a path-to-value association list. -/
abbrev Settings := List (String × SVal)

/-- The settings GetValue call on a well-behaved bus: succeeds exactly when
the path exists. -/
def GetValue (st : Settings) (p : String) : Option SVal :=
  st.lookup p

/-- The settings SetValue call on a well-behaved bus: creates or shadows
the path. -/
def SetValue (st : Settings) (p : String) (v : SVal) : Settings :=
  (p, v) :: st

/-- The provisioning primitive the spec calls ensurePath, as the source
writes it (for example lines 196-200): try GetValue, and on DBusException
(path absent on a well-behaved bus) SetValue the default.  Returns the new
store and the number of writes performed. -/
def ensurePath (st : Settings) (p : String) (d : SVal) : Settings × Nat :=
  match GetValue st p with
  | some _ => (st, 0)
  | none => (SetValue st p d, 1)

/-- Possible outcomes of a single settings.GetValue call, as seen by the
try-except around it: a value is returned, a DBusException signalling that
the path does not exist is raised, some other DBusException is raised, or a
non-DBus exception is raised. -/
inductive GetOutcome
  | found (v : SVal)
  | dbusNotExist
  | dbusOtherError
  | raiseOther
  deriving DecidableEq

/-- Possible outcomes of the settings.SetValue call inside the except
branch. -/
inductive SetOutcome
  | ok
  | raiseDbus
  | raiseOther
  deriving DecidableEq

/-- Environment of one ensure-path block: what the read does and, if the
write is reached, what the write does. -/
structure EnsureEnv where
  get : GetOutcome
  set : SetOutcome

/-- Run the SetValue call of an ensure-path block: on success report that a
write happened, otherwise propagate the raised exception. -/
def runSet : SetOutcome → Except PyExnClass Bool
  | SetOutcome.ok => Except.ok true
  | SetOutcome.raiseDbus => Except.error PyExnClass.dbusException
  | SetOutcome.raiseOther => Except.error PyExnClass.genericException

/-- One ensure-path block exactly as the source writes it: try
settings.GetValue(path); except dbus.exceptions.DBusException:
settings.SetValue(path, default).  The except clause catches every
DBusException, so both the does-not-exist case and any other DBus-level
read failure fall through to the write; only non-DBus exceptions
propagate.  The Bool result records whether a write was performed. -/
def ensureRun (e : EnsureEnv) : Except PyExnClass Bool :=
  match e.get with
  | GetOutcome.found _ => Except.ok false
  | GetOutcome.dbusNotExist => runSet e.set
  | GetOutcome.dbusOtherError => runSet e.set
  | GetOutcome.raiseOther => Except.error PyExnClass.genericException

/-- Whether an ensure-path block completed without raising. -/
def exceptOkB : Except PyExnClass Bool → Bool
  | Except.ok _ => true
  | Except.error _ => false

/-- Observable provisioning events of one registration pass, in the order
they complete. -/
inductive Ev
  | ensured (path : String) (default : SVal)
  | claimedBusName (nm : String)
  | exportedObject (path : String)
  deriving DecidableEq

/-- A GLib main loop object.  Modelled from the GLib library semantics the
source relies on: a freshly constructed loop is not running, and
is_running only becomes true inside run, which the source never calls. -/
structure GMainLoop where
  running : Bool

/-- GLib.MainLoop() as called at source line 293. -/
def GMainLoop.new : GMainLoop :=
  { running := false }

/-- mainloop.is_running() as queried at source line 296. -/
def is_running (ml : GMainLoop) : Bool :=
  ml.running

/-- How the inner while loop ends: the guard was false, the supplied
iteration environments ran out while the guard was still true, or an
exception escaped the inner handler. -/
inductive InnerExit
  | guardFalse
  | fuelOut
  | escape (e : PyExnClass)
  deriving DecidableEq

/-- Result of running the inner while loop: final service state, number of
iterations entered, number of read_temp calls made, and how it ended. -/
structure InnerResult where
  svc : TemperatureService
  iters : Nat
  reads : Nat
  exit : InnerExit

/-- The inner while loop (source lines 296-305): while
mainloop.is_running(), run one sampling iteration.  The guard is checked
before every iteration and nothing in the body mutates the loop object.
Each iteration entered calls read_temp exactly once, as its first
statement. -/
def runInner (ml : GMainLoop) : List IterEnv → TemperatureService → InnerResult
  | [], svc =>
    if is_running ml then ⟨svc, 0, 0, InnerExit.fuelOut⟩
    else ⟨svc, 0, 0, InnerExit.guardFalse⟩
  | iv :: rest, svc =>
    if is_running ml then
      match innerIteration iv svc with
      | (svc1, IterExit.escape e) => ⟨svc1, 1, 1, InnerExit.escape e⟩
      | (svc1, _) =>
        let r := runInner ml rest svc1
        ⟨r.svc, r.iters + 1, r.reads + 1, r.exit⟩
    else ⟨svc, 0, 0, InnerExit.guardFalse⟩

/-- How one pass of the outer while-True loop ends: the try body completed
and control returns to the top of the loop, the except-DBusException
handler slept and retried, the except-Exception handler slept and retried,
an uncatchable exception escaped main, or the inner loop ran out of
supplied iteration environments. -/
inductive PassOutcome
  | completed
  | caughtDbus (slept : Nat)
  | caughtOther (slept : Nat)
  | escaped
  | fuelOut
  deriving DecidableEq

/-- Result of one pass of the outer loop: events completed, whether a
device object is left exported on the connection at the end of the pass,
the state of that object if any, inner loop statistics, and the outcome. -/
structure PassResult where
  events : List Ev
  exported : Bool
  service : Option TemperatureService
  innerIters : Nat
  readTempCalls : Nat
  outcome : PassOutcome

/-- The outer exception dispatch of main (source lines 306-312): except
dbus.DBusException sleeps 60 and retries, except Exception sleeps 60 and
retries, anything else escapes the function.  Nothing in either handler
unregisters an already-exported object. -/
def outerCatch (evs : List Ev) (expd : Bool) (svc : Option TemperatureService)
    (iters reads : Nat) (e : PyExnClass) : PassResult :=
  match e with
  | PyExnClass.dbusException => ⟨evs, expd, svc, iters, reads, PassOutcome.caughtDbus 60⟩
  | PyExnClass.genericException => ⟨evs, expd, svc, iters, reads, PassOutcome.caughtOther 60⟩
  | PyExnClass.systemExit => ⟨evs, expd, svc, iters, reads, PassOutcome.escaped⟩

/-- Finish a pass whose provisioning succeeded, according to how the inner
loop ended. -/
def finishPass (evs : List Ev) (r : InnerResult) : PassResult :=
  match r.exit with
  | InnerExit.guardFalse => ⟨evs, true, some r.svc, r.iters, r.reads, PassOutcome.completed⟩
  | InnerExit.fuelOut => ⟨evs, true, some r.svc, r.iters, r.reads, PassOutcome.fuelOut⟩
  | InnerExit.escape e => outerCatch evs true (some r.svc) r.iters r.reads e

/-- Environment of one pass of the outer loop: the outcome of each external
bus call, in program order.  systemBus is dbus.SystemBus() (line 189),
getSettings is the get_object and Interface construction (lines 192-193),
rootEnsure is the OBJ_PATH ensure block (lines 196-200), busNameClaim is
dbus.service.BusName (line 204), exportObject is the TemperatureService
construction that registers the object path (line 245), and the remaining
four are the metadata ensure blocks (lines 248-287).  iterEnvs supplies the
inner loop. -/
structure PassEnv where
  systemBus : Option PyExnClass
  getSettings : Option PyExnClass
  rootEnsure : EnsureEnv
  busNameClaim : Option PyExnClass
  exportObject : Option PyExnClass
  devInstEnsure : EnsureEnv
  productIdEnsure : EnsureEnv
  productNameEnsure : EnsureEnv
  customNameEnsure : EnsureEnv
  iterEnvs : List IterEnv

/-- The provisioning events of a fully successful pass, in source order:
root default ensured (lines 196-200), bus name claimed (line 204), device
object exported (line 245), then the four metadata paths ensured (lines
248-287). -/
def fullTrace : List Ev :=
  [Ev.ensured OBJ_PATH (SVal.f 25),
   Ev.claimedBusName SERVICE_NAME,
   Ev.exportedObject OBJ_PATH,
   Ev.ensured "/DeviceInstance" (SVal.i DEVICE_INSTANCE),
   Ev.ensured "/ProductId" (SVal.i PRODUCT_ID),
   Ev.ensured "/ProductName" (SVal.s DRIVER_NAME),
   Ev.ensured "/CustomName" (SVal.s DRIVER_NAME)]

/-- One pass of the outer while-True loop of main (source lines 186-312),
from the top of the loop to the next time control reaches the top (or main
is escaped).  Steps run in source order; the first raised exception
short-circuits to the outer dispatch.  Once the TemperatureService object
has been constructed the connection holds it registered; no later failure
removes it. -/
def mainPass (env : PassEnv) : PassResult :=
  match env.systemBus with
  | some e => outerCatch [] false none 0 0 e
  | none =>
    match env.getSettings with
    | some e => outerCatch [] false none 0 0 e
    | none =>
      match ensureRun env.rootEnsure with
      | Except.error e => outerCatch [] false none 0 0 e
      | Except.ok _ =>
        match env.busNameClaim with
        | some e =>
          outerCatch [Ev.ensured OBJ_PATH (SVal.f 25)] false none 0 0 e
        | none =>
          match env.exportObject with
          | some e =>
            outerCatch [Ev.ensured OBJ_PATH (SVal.f 25),
                        Ev.claimedBusName SERVICE_NAME] false none 0 0 e
          | none =>
            match ensureRun env.devInstEnsure with
            | Except.error e =>
              outerCatch [Ev.ensured OBJ_PATH (SVal.f 25),
                          Ev.claimedBusName SERVICE_NAME,
                          Ev.exportedObject OBJ_PATH]
                true (some TemperatureService.init) 0 0 e
            | Except.ok _ =>
              match ensureRun env.productIdEnsure with
              | Except.error e =>
                outerCatch [Ev.ensured OBJ_PATH (SVal.f 25),
                            Ev.claimedBusName SERVICE_NAME,
                            Ev.exportedObject OBJ_PATH,
                            Ev.ensured "/DeviceInstance" (SVal.i DEVICE_INSTANCE)]
                  true (some TemperatureService.init) 0 0 e
              | Except.ok _ =>
                match ensureRun env.productNameEnsure with
                | Except.error e =>
                  outerCatch [Ev.ensured OBJ_PATH (SVal.f 25),
                              Ev.claimedBusName SERVICE_NAME,
                              Ev.exportedObject OBJ_PATH,
                              Ev.ensured "/DeviceInstance" (SVal.i DEVICE_INSTANCE),
                              Ev.ensured "/ProductId" (SVal.i PRODUCT_ID)]
                    true (some TemperatureService.init) 0 0 e
                | Except.ok _ =>
                  match ensureRun env.customNameEnsure with
                  | Except.error e =>
                    outerCatch [Ev.ensured OBJ_PATH (SVal.f 25),
                                Ev.claimedBusName SERVICE_NAME,
                                Ev.exportedObject OBJ_PATH,
                                Ev.ensured "/DeviceInstance" (SVal.i DEVICE_INSTANCE),
                                Ev.ensured "/ProductId" (SVal.i PRODUCT_ID),
                                Ev.ensured "/ProductName" (SVal.s DRIVER_NAME)]
                      true (some TemperatureService.init) 0 0 e
                  | Except.ok _ =>
                    finishPass fullTrace
                      (runInner GMainLoop.new env.iterEnvs TemperatureService.init)

/-- Whether every bus step of a pass up to and including the metadata
provisioning succeeds. -/
def stepsOk (env : PassEnv) : Bool :=
  env.systemBus.isNone && env.getSettings.isNone
    && exceptOkB (ensureRun env.rootEnsure)
    && env.busNameClaim.isNone && env.exportObject.isNone
    && exceptOkB (ensureRun env.devInstEnsure)
    && exceptOkB (ensureRun env.productIdEnsure)
    && exceptOkB (ensureRun env.productNameEnsure)
    && exceptOkB (ensureRun env.customNameEnsure)

/-- The outcome the outer dispatch assigns to a raised exception. -/
def abortOutcome : PyExnClass → PassOutcome
  | PyExnClass.dbusException => PassOutcome.caughtDbus 60
  | PyExnClass.genericException => PassOutcome.caughtOther 60
  | PyExnClass.systemExit => PassOutcome.escaped

/-- Tameness of a sensor environment: the primitive calls os.listdir, file
reading and float parsing raise only Exception-derived errors, as those
library calls do. -/
def sensorEnvTame (env : SensorEnv) : Prop :=
  (∀ e, env.listdir = Except.error e → isInstanceException e = true) ∧
  (∀ e, env.readFile = Except.error e → isInstanceException e = true) ∧
  (∀ s e, env.parseFloat s = Except.error e → isInstanceException e = true)

/-- A pass environment in which every bus call succeeds (the metadata paths
partly exist already, partly get created). -/
def happyEnv : PassEnv :=
  { systemBus := none
    getSettings := none
    rootEnsure := { get := GetOutcome.found (SVal.f 25), set := SetOutcome.ok }
    busNameClaim := none
    exportObject := none
    devInstEnsure := { get := GetOutcome.dbusNotExist, set := SetOutcome.ok }
    productIdEnsure := { get := GetOutcome.found (SVal.i 45316), set := SetOutcome.ok }
    productNameEnsure := { get := GetOutcome.dbusNotExist, set := SetOutcome.ok }
    customNameEnsure := { get := GetOutcome.found (SVal.s "fridge"), set := SetOutcome.ok }
    iterEnvs := [] }

/-- A pass environment that fails at the /DeviceInstance ensure block, after
the device object has already been exported. -/
def c4Env : PassEnv :=
  { systemBus := none
    getSettings := none
    rootEnsure := { get := GetOutcome.found (SVal.f 25), set := SetOutcome.ok }
    busNameClaim := none
    exportObject := none
    devInstEnsure := { get := GetOutcome.dbusNotExist, set := SetOutcome.raiseDbus }
    productIdEnsure := { get := GetOutcome.found (SVal.i 45316), set := SetOutcome.ok }
    productNameEnsure := { get := GetOutcome.found (SVal.s "x"), set := SetOutcome.ok }
    customNameEnsure := { get := GetOutcome.found (SVal.s "x"), set := SetOutcome.ok }
    iterEnvs := [] }

/-- A pass environment that fails already at the registration-root ensure
block, before anything is exported. -/
def c4RootFailEnv : PassEnv :=
  { systemBus := none
    getSettings := none
    rootEnsure := { get := GetOutcome.dbusNotExist, set := SetOutcome.raiseDbus }
    busNameClaim := none
    exportObject := none
    devInstEnsure := { get := GetOutcome.found (SVal.i 245), set := SetOutcome.ok }
    productIdEnsure := { get := GetOutcome.found (SVal.i 45316), set := SetOutcome.ok }
    productNameEnsure := { get := GetOutcome.found (SVal.s "x"), set := SetOutcome.ok }
    customNameEnsure := { get := GetOutcome.found (SVal.s "x"), set := SetOutcome.ok }
    iterEnvs := [] }

/-- An iteration environment in which the sample succeeds and the Value
push raises a bus-level DBusException. -/
def c3IterEnv : IterEnv :=
  { readTempResult := Except.ok (22.5 : ℚ)
    pushRaise := some PyExnClass.dbusException }

/-- A sensor environment with a present DS18B20 device whose reading fails
the CRC check: the first line of w1_slave ends in NO. -/
def c2SensorEnv : SensorEnv :=
  { listdir := Except.ok ["28-000005e2fdc3"]
    readFile := Except.ok ["4b 01 4b 46 7f ff 05 10 d8 : crc=d8 NO", "irrelevant"]
    parseFloat := fun _ => Except.error PyExnClass.genericException }

/-- The inner-loop schedule induced by one sampling round against the
CRC-failing sensor on an armv7l machine. -/
def c2IterList : List IterEnv :=
  [{ readTempResult := read_temp "armv7l" c2SensorEnv, pushRaise := none }]

/-- A one-iteration schedule in which the sample-source call raises. -/
def c2FailList : List IterEnv :=
  [{ readTempResult := Except.error PyExnClass.genericException, pushRaise := none }]

/-- A sensor environment in which every primitive call succeeds. -/
def c10SensorEnv : SensorEnv :=
  { listdir := Except.ok ["28-000005e2fdc3"]
    readFile := Except.ok ["4b 01 4b 46 7f ff 05 10 d8 : crc=d8 YES", "t=21250"]
    parseFloat := fun _ => Except.ok 21250 }

/-- An ensure-path block completed without raising exactly when its run is
an ok result. -/
theorem exceptOkB_iff (x : Except PyExnClass Bool) :
    exceptOkB x = true ↔ ∃ b, x = Except.ok b := by
  cases x <;> simp [exceptOkB]

/-- A freshly constructed GLib main loop is not running, so the inner while
loop exits before its first iteration whatever schedule it is given. -/
theorem runInner_new (envs : List IterEnv) (svc : TemperatureService) :
    runInner GMainLoop.new envs svc = ⟨svc, 0, 0, InnerExit.guardFalse⟩ := by
  cases envs <;> rfl

/-- Characterization of a fully successful pass: all provisioning events
happen in source order, the device object stays exported with its initial
state, the inner loop contributes nothing, and control returns to the top
of the outer loop. -/
theorem mainPass_ok (env : PassEnv) (h : stepsOk env = true) :
    mainPass env =
      { events := fullTrace, exported := true,
        service := some TemperatureService.init,
        innerIters := 0, readTempCalls := 0,
        outcome := PassOutcome.completed } := by
  simp only [stepsOk, Bool.and_eq_true, and_assoc, Option.isNone_iff_eq_none] at h
  obtain ⟨h1, h2, h3, h4, h5, h6, h7, h8, h9⟩ := h
  obtain ⟨b3, hb3⟩ := (exceptOkB_iff _).mp h3
  obtain ⟨b6, hb6⟩ := (exceptOkB_iff _).mp h6
  obtain ⟨b7, hb7⟩ := (exceptOkB_iff _).mp h7
  obtain ⟨b8, hb8⟩ := (exceptOkB_iff _).mp h8
  obtain ⟨b9, hb9⟩ := (exceptOkB_iff _).mp h9
  unfold mainPass
  rw [h1, h2, hb3, h4, h5, hb6, hb7, hb8, hb9, runInner_new]
  rfl

/-- Every error that escapes the try body of read_temp on the armv7l branch
is Exception-derived, provided the primitive sensor calls only raise
Exception-derived errors (IndexError, raised by the list subscripts, is
Exception-derived). -/
theorem readTempArmBody_tame (env : SensorEnv) (h : sensorEnvTame env) :
    ∀ e, readTempArmBody env = Except.error e → isInstanceException e = true := by
  obtain ⟨h1, h2, h3⟩ := h
  intro e he
  unfold readTempArmBody at he
  repeat' split at he
  all_goals
    first
      | exact Except.noConfusion he
      | (injection he with h12; subst h12;
         first
           | rfl
           | exact h1 _ (by assumption)
           | exact h2 _ (by assumption)
           | exact h3 _ _ (by assumption))

/-- Every write through the Value setter appends exactly one signal
carrying the written value. -/
theorem applySets_signals (vs : List ℚ) (svc : TemperatureService) :
    (applySets svc vs).signals = svc.signals ++ vs := by
  induction vs generalizing svc with
  | nil => simp [applySets]
  | cons v rest ih =>
    show (applySets (setValue svc v) rest).signals = svc.signals ++ v :: rest
    rw [ih (setValue svc v)]
    simp [setValue]

/-- C1: in every pass of main in which the bus connection and all metadata
provisioning succeed, the inner sampling loop guarded by
mainloop.is_running() executes zero iterations, because the GLib main loop
object is constructed but never run; read_temp is never called, Value is
never written, the exported Value stays at its initial 25.0, and control
falls back to the top of the outer registration loop. -/
theorem c1_inner_loop_never_runs (env : PassEnv) (h : stepsOk env = true) :
    (mainPass env).innerIters = 0 ∧ (mainPass env).readTempCalls = 0 ∧
    (mainPass env).service = some { temperature := 25, signals := [] } ∧
    (mainPass env).outcome = PassOutcome.completed := by
  rw [mainPass_ok env h]
  exact ⟨rfl, rfl, rfl, rfl⟩

/-- Witness for C1 at a concrete environment in which every bus call
succeeds. -/
theorem c1_witness :
    stepsOk happyEnv = true ∧
    ((mainPass happyEnv).innerIters = 0 ∧ (mainPass happyEnv).readTempCalls = 0 ∧
     (mainPass happyEnv).service = some { temperature := 25, signals := [] } ∧
     (mainPass happyEnv).outcome = PassOutcome.completed) :=
  ⟨rfl, c1_inner_loop_never_runs happyEnv rfl⟩

/-- C2 counterexample: the claim says every sampling failure (the sample
source raises or returns invalid data) leaves the published Value at its
pre-failure reading.  But a sensor-level failure inside read_temp, here a
CRC failure, does not raise: read_temp masks it by returning the default
25.0, the loop pushes that value, and a pre-failure Value of 18 is
overwritten with the sentinel 25. -/
theorem c2_counterexample :
    read_temp "armv7l" c2SensorEnv = Except.ok 25 ∧
    runSampling c2IterList { temperature := 18, signals := [] } =
      { temperature := 25, signals := [25] } ∧
    (25 : ℚ) ≠ 18 :=
  ⟨rfl, rfl, by norm_num⟩

/-- C2 amended: a sampling failure in which the sample-source call raises
leaves the published Value (and the whole service state) unchanged, for any
run of consecutive raising samples; sensor failures that read_temp masks as
a returned default 25.0 are instead pushed and overwrite Value. -/
theorem c2_stale_value_amended :
    ∀ (envs : List IterEnv) (svc : TemperatureService),
      (∀ iv ∈ envs, ∃ err, iv.readTempResult = Except.error err) →
      runSampling envs svc = svc := by
  intro envs
  induction envs with
  | nil => intro svc _; rfl
  | cons iv rest ih =>
    intro svc h
    obtain ⟨err, herr⟩ := h iv (List.mem_cons_self iv rest)
    have hrest : ∀ x ∈ rest, ∃ err2, x.readTempResult = Except.error err2 :=
      fun x hx => h x (List.mem_cons_of_mem iv hx)
    cases hie : isInstanceException err with
    | true =>
      have hstep : innerIteration iv svc = (svc, IterExit.caughtRetry 60) := by
        simp [innerIteration, herr, hie]
      simp only [runSampling, hstep]
      exact ih svc hrest
    | false =>
      have hstep : innerIteration iv svc = (svc, IterExit.escape err) := by
        simp [innerIteration, herr, hie]
      simp only [runSampling, hstep]

/-- Witness for the amended C2: one raising sample leaves a stored reading
of 18 untouched. -/
theorem c2_amended_witness :
    runSampling c2FailList { temperature := 18, signals := [] } =
      { temperature := 18, signals := [] } :=
  c2_stale_value_amended c2FailList _ (by
    intro iv hiv
    simp only [c2FailList, List.mem_singleton] at hiv
    subst hiv
    exact ⟨PyExnClass.genericException, rfl⟩)

/-- C3 counterexample: the claim says a bus-level error raised by the Value
push is treated as connection loss (escaping to the outer handler and
forcing a reconnect).  But dbus.DBusException is a subclass of Exception,
so the inner except-Exception handler catches it: the iteration ends in a
60 second sampling-backoff retry on the same connection, not in an escape
to the reconnect path. -/
theorem c3_counterexample :
    innerIteration c3IterEnv { temperature := 25, signals := [] } =
      ({ temperature := 22.5, signals := [22.5] }, IterExit.caughtRetry 60) ∧
    IterExit.caughtRetry 60 ≠ IterExit.escape PyExnClass.dbusException :=
  ⟨rfl, by decide⟩

/-- C3 amended: a bus-level (or any Exception-derived) error raised by the
setValue push inside the sampling loop is caught by the generic inner
handler: the value has already been stored, the cycle is retried on the
same connection after the 60 second backoff, and no transition to the
reconnect path occurs. -/
theorem c3_push_failure_amended (env : IterEnv) (svc : TemperatureService)
    (t : ℚ) (e : PyExnClass)
    (h1 : env.readTempResult = Except.ok t) (h2 : env.pushRaise = some e)
    (h3 : isInstanceException e = true) :
    innerIteration env svc = (setValue svc t, IterExit.caughtRetry 60) := by
  simp [innerIteration, h1, h2, h3]

/-- Witness for the amended C3: a push failure with a DBusException. -/
theorem c3_amended_witness :
    innerIteration c3IterEnv { temperature := 25, signals := [] } =
      (setValue { temperature := 25, signals := [] } (22.5 : ℚ),
       IterExit.caughtRetry 60) :=
  c3_push_failure_amended c3IterEnv _ (22.5 : ℚ) PyExnClass.dbusException rfl rfl rfl

/-- C4 counterexample: the claim says a failing ensurePath during device
registration leaves no device object exported.  But the TemperatureService
object is exported before the four metadata ensure blocks, and nothing
unregisters it: when the /DeviceInstance ensure block raises a
DBusException, the pass aborts to the outer handler with the device object
still exported on the connection. -/
theorem c4_counterexample :
    (mainPass c4Env).exported = true ∧
    (mainPass c4Env).service = some { temperature := 25, signals := [] } ∧
    (mainPass c4Env).outcome = PassOutcome.caughtDbus 60 :=
  ⟨rfl, rfl, rfl⟩

/-- C4 amended: a failure of any ensure block aborts the pass (remaining
provisioning is skipped and the outer handler sleeps and retries), and a
failure at the registration-root ensure, before export, leaves nothing
exported; but a failure at a metadata ensure after the object has been
created leaves the device object still exported. -/
theorem c4_no_partial_registration_amended (env : PassEnv) :
    (∀ e, env.systemBus = none → env.getSettings = none →
      ensureRun env.rootEnsure = Except.error e →
      (mainPass env).exported = false ∧ (mainPass env).service = none ∧
      (mainPass env).outcome = abortOutcome e) ∧
    (∀ e, env.systemBus = none → env.getSettings = none →
      exceptOkB (ensureRun env.rootEnsure) = true →
      env.busNameClaim = none → env.exportObject = none →
      ensureRun env.devInstEnsure = Except.error e →
      (mainPass env).exported = true ∧
      (mainPass env).service = some TemperatureService.init ∧
      (mainPass env).outcome = abortOutcome e) := by
  constructor
  · intro e h1 h2 he
    unfold mainPass
    rw [h1, h2, he]
    cases e <;> exact ⟨rfl, rfl, rfl⟩
  · intro e h1 h2 h3 h4 h5 he
    obtain ⟨b, hb⟩ := (exceptOkB_iff _).mp h3
    unfold mainPass
    rw [h1, h2, hb, h4, h5, he]
    cases e <;> exact ⟨rfl, rfl, rfl⟩

/-- Witness for the amended C4: a root-ensure failure leaves nothing
exported, a /DeviceInstance ensure failure leaves the object exported. -/
theorem c4_amended_witness :
    ((mainPass c4RootFailEnv).exported = false ∧
     (mainPass c4RootFailEnv).service = none ∧
     (mainPass c4RootFailEnv).outcome = abortOutcome PyExnClass.dbusException) ∧
    ((mainPass c4Env).exported = true ∧
     (mainPass c4Env).service = some TemperatureService.init ∧
     (mainPass c4Env).outcome = abortOutcome PyExnClass.dbusException) :=
  ⟨(c4_no_partial_registration_amended c4RootFailEnv).1 PyExnClass.dbusException rfl rfl rfl,
   (c4_no_partial_registration_amended c4Env).2 PyExnClass.dbusException rfl rfl rfl rfl rfl rfl⟩

/-- C5 counterexample: the claim says only a does-not-exist read failure
triggers the write of the default, and every other read failure is
propagated as BusProtocolError.  But the except clause catches every
DBusException alike: on a DBus-level read failure that is not
does-not-exist, the block writes the default (result ok true records the
write) and propagates nothing. -/
theorem c5_counterexample :
    ensureRun { get := GetOutcome.dbusOtherError, set := SetOutcome.ok } =
      Except.ok true :=
  rfl

/-- C5 amended: the ensure block writes the caller-supplied default
whenever the read raises any DBusException, does-not-exist or not, treating
the two identically; a non-DBus read failure propagates unchanged (no
distinct BusProtocolError exists), and a successful read performs no
write. -/
theorem c5_ensure_path_amended (s : SetOutcome) (v : SVal) :
    ensureRun { get := GetOutcome.dbusOtherError, set := s } =
      ensureRun { get := GetOutcome.dbusNotExist, set := s } ∧
    ensureRun { get := GetOutcome.raiseOther, set := s } =
      Except.error PyExnClass.genericException ∧
    ensureRun { get := GetOutcome.found v, set := s } = Except.ok false :=
  ⟨rfl, rfl, rfl⟩

/-- C6: calling ensurePath twice in succession with the same path and the
same default leaves the settings state identical to calling it once, and
the second call performs no write: once the path exists the read succeeds,
so SetValue is never invoked for an already-existing path. -/
theorem c6_ensure_path_idempotent (st : Settings) (p : String) (d : SVal) :
    ensurePath (ensurePath st p d).1 p d = ((ensurePath st p d).1, 0) := by
  cases hg : GetValue st p with
  | some v => simp [ensurePath, hg]
  | none =>
    have h1 : ensurePath st p d = ((p, d) :: st, 1) := by
      simp [ensurePath, hg, SetValue]
    rw [h1]
    simp [ensurePath, GetValue, List.lookup]

/-- C7: during a successful registration pass, provisioning happens in
exactly this order: the registration-root default is verified/created
first, then the device object is exported on the bus under the claimed
service name, and only then are the device-instance, product-id,
product-name and custom-name metadata paths verified/created, in that
order. -/
theorem c7_provisioning_order (env : PassEnv) (h : stepsOk env = true) :
    (mainPass env).events =
      [Ev.ensured OBJ_PATH (SVal.f 25),
       Ev.claimedBusName SERVICE_NAME,
       Ev.exportedObject OBJ_PATH,
       Ev.ensured "/DeviceInstance" (SVal.i DEVICE_INSTANCE),
       Ev.ensured "/ProductId" (SVal.i PRODUCT_ID),
       Ev.ensured "/ProductName" (SVal.s DRIVER_NAME),
       Ev.ensured "/CustomName" (SVal.s DRIVER_NAME)] := by
  rw [mainPass_ok env h]
  rfl

/-- Witness for C7 at a concrete all-success environment. -/
theorem c7_witness :
    stepsOk happyEnv = true ∧
    (mainPass happyEnv).events =
      [Ev.ensured OBJ_PATH (SVal.f 25),
       Ev.claimedBusName SERVICE_NAME,
       Ev.exportedObject OBJ_PATH,
       Ev.ensured "/DeviceInstance" (SVal.i DEVICE_INSTANCE),
       Ev.ensured "/ProductId" (SVal.i PRODUCT_ID),
       Ev.ensured "/ProductName" (SVal.s DRIVER_NAME),
       Ev.ensured "/CustomName" (SVal.s DRIVER_NAME)] :=
  ⟨rfl, c7_provisioning_order happyEnv rfl⟩

/-- C8: after any setValue write of v, the Text property is exactly v
formatted to one decimal place followed by the fixed unit suffix, and in
every state Text is recomputed from the stored Value alone, with no
separately cached string. -/
theorem c8_text_rendering (svc : TemperatureService) (v : ℚ) :
    Text (setValue svc v) = pyFmt1 v ++ " °C" ∧
    Text svc = pyFmt1 (Value svc) ++ " °C" :=
  ⟨rfl, rfl⟩

/-- C9: for every finite sequence of setValue calls the emitted
PropertiesChanged signals are exactly the written values in order, so their
number equals the number of calls, including writes that repeat the
currently stored value. -/
theorem c9_signal_per_write (svc : TemperatureService) (vs : List ℚ) :
    (applySets svc vs).signals = svc.signals ++ vs ∧
    (applySets svc vs).signals.length = svc.signals.length + vs.length := by
  refine ⟨applySets_signals vs svc, ?_⟩
  rw [applySets_signals vs svc, List.length_append]

/-- C10: read_temp is total and never propagates an exception to its
caller (given that the primitive sensor calls raise only Exception-derived
errors, as os.listdir, file reading and float do): it always returns some
value, on every machine other than armv7l it deterministically returns
22.5, and any exception raised inside the armv7l try body is caught and
replaced by the default 25.0. -/
theorem c10_read_temp_total (machine : String) (env : SensorEnv)
    (h : sensorEnvTame env) :
    (∃ v, read_temp machine env = Except.ok v) ∧
    ((machine == "armv7l") = false → read_temp machine env = Except.ok (22.5 : ℚ)) ∧
    (∀ e, readTempArmBody env = Except.error e →
      read_temp "armv7l" env = Except.ok 25) := by
  refine ⟨?_, ?_, ?_⟩
  · cases hm : machine == "armv7l" with
    | false =>
      refine ⟨22.5, ?_⟩
      unfold read_temp
      rw [hm]
      rfl
    | true =>
      cases hb : readTempArmBody env with
      | ok t =>
        refine ⟨t, ?_⟩
        unfold read_temp
        rw [hm, hb]
        rfl
      | error e =>
        refine ⟨25, ?_⟩
        unfold read_temp
        rw [hm, hb]
        simp [readTempArmBody_tame env h e hb]
  · intro hm
    unfold read_temp
    rw [hm]
    rfl
  · intro e he
    unfold read_temp
    rw [he]
    simp [readTempArmBody_tame env h e he]

/-- Witness for C10 at a concrete tame sensor environment and a non-arm
machine string. -/
theorem c10_witness :
    sensorEnvTame c10SensorEnv ∧
    (∃ v, read_temp "armv7l" c10SensorEnv = Except.ok v) ∧
    read_temp "x86_64" c10SensorEnv = Except.ok (22.5 : ℚ) := by
  have ht : sensorEnvTame c10SensorEnv :=
    ⟨fun e he => Except.noConfusion he,
     fun e he => Except.noConfusion he,
     fun s e he => Except.noConfusion he⟩
  exact ⟨ht, (c10_read_temp_total "armv7l" c10SensorEnv ht).1,
         (c10_read_temp_total "x86_64" c10SensorEnv ht).2.1 rfl⟩

end BrassMonkey
